import Mathlib

/-!
Shallow embedding of the Solana loan-management program
(src/blockchain/programs/loan-management), modelling the record schemas
(state.rs), the error taxonomy (errors.rs) and the instruction handlers
(instructions/*.rs) as pure transition functions over an explicit ledger
state.  Machine integers are modelled as Nat with explicit caps where the
source uses checked or saturating fixed-width arithmetic; Rust Nat
saturating_sub coincides with Nat subtraction.  Timestamps (i64) are
modelled as Int.  Public keys are modelled as Nat.
-/

/-- Cap for u8 arithmetic (2^8). -/
def U8CAP : Nat := 2 ^ 8

/-- Cap for u16 arithmetic (2^16). -/
def U16CAP : Nat := 2 ^ 16

/-- Cap for u64 arithmetic (2^64). -/
def U64CAP : Nat := 2 ^ 64

/-- Cap for u128 arithmetic (2^128). -/
def U128CAP : Nat := 2 ^ 128

/-- Rust checked_add on a fixed-width unsigned integer of cap 2^w:
some of the sum when it fits, none on overflow. -/
def checkedAdd (cap a b : Nat) : Option Nat :=
  if a + b < cap then some (a + b) else none

/-- Rust checked_mul on a fixed-width unsigned integer of cap 2^w. -/
def checkedMul (cap a b : Nat) : Option Nat :=
  if a * b < cap then some (a * b) else none

/-- Rust saturating_add on a fixed-width unsigned integer of cap 2^w. -/
def satAdd (cap a b : Nat) : Nat := min (a + b) (cap - 1)

/-- EmploymentType enum from state.rs. -/
inductive EmploymentType
  | Salaried
  | SelfEmployed
  | BusinessOwner
  | DailyWage
  | Unemployed
  deriving DecidableEq

/-- LoanStatus enum from state.rs. -/
inductive LoanStatus
  | Active
  | Completed
  | Defaulted
  | Cancelled
  deriving DecidableEq

/-- RiskLevel enum from state.rs. -/
inductive RiskLevel
  | Low
  | Medium
  | High
  | Critical
  deriving DecidableEq

/-- LoanError enum from errors.rs (the program's error taxonomy). -/
inductive LoanError
  | Unauthorized
  | ProgramPaused
  | UserAlreadyRegistered
  | UserNotFound
  | InvalidLoanAmount
  | InvalidInterestRate
  | InvalidTenure
  | ActiveLoanExists
  | LoanNotFound
  | LoanNotActive
  | InvalidPaymentAmount
  | InvalidInstallmentNumber
  | InstallmentAlreadyPaid
  | LoanAlreadyCompleted
  | LoanAlreadyDefaulted
  | InsufficientPayment
  | PaymentTooEarly
  | InvalidRiskScore
  | InvalidDefaultProbability
  | MathOverflow
  | NameTooLong
  | InvalidStringFormat
  | LowCreditScore
  | HighRiskUser
  | IncomeTooLow
  deriving DecidableEq

/-- Modelled from the spec: the account-storage collaborator (spec section 1
and section 3) which the handlers rely on.  Creating a record that already
exists is rejected by the ledger (the Anchor account constraints in the
accounts structs, e.g. RecordPayment's payment_record), and loading a record
that does not exist fails; these rejections surface as ledger-level errors
distinct from every LoanError kind, alongside the constraint checks declared
in the accounts structs.  A transition therefore fails either with a program
error or with one of these ledger errors. -/
inductive TxError
  | program (e : LoanError)
  | accountAlreadyInUse
  | accountNotFound
  | constraintViolated
  deriving DecidableEq

/-- LoanProgramState record from state.rs (PDA bump omitted: addressing
plumbing out of scope per the spec). -/
structure LoanProgramState where
  authority : Nat
  total_users : Nat
  total_loans : Nat
  total_volume : Nat
  fee_percentage : Nat
  paused : Bool
  deriving DecidableEq

/-- UserProfile record from state.rs. -/
structure UserProfile where
  authority : Nat
  full_name : String
  monthly_income : Nat
  employment_type : EmploymentType
  total_loans : Nat
  active_loans : Nat
  completed_loans : Nat
  defaulted_loans : Nat
  total_borrowed : Nat
  total_repaid : Nat
  on_time_payments : Nat
  late_payments : Nat
  missed_payments : Nat
  credit_score : Nat
  risk_level : RiskLevel
  registration_timestamp : Int
  last_updated : Int
  deriving DecidableEq

/-- Loan record from state.rs. -/
structure Loan where
  user : Nat
  loan_id : Nat
  principal_amount : Nat
  interest_rate : Nat
  tenure_months : Nat
  monthly_installment : Nat
  total_amount : Nat
  outstanding_balance : Nat
  total_repaid : Nat
  total_fines : Nat
  start_timestamp : Int
  end_timestamp : Int
  status : LoanStatus
  created_timestamp : Int
  completed_timestamp : Option Int
  defaulted_timestamp : Option Int
  deriving DecidableEq

/-- PaymentRecord record from state.rs; the owning loan is identified by its
address, here the pair (borrower key, loan_id) used as the loan's seeds. -/
structure PaymentRecord where
  loan : Nat × Nat
  user : Nat
  installment_number : Nat
  amount : Nat
  fine_amount : Nat
  payment_timestamp : Int
  payment_hash : String
  on_time : Bool
  days_late : Nat
  deriving DecidableEq

/-- RiskProfile record from state.rs. -/
structure RiskProfile where
  user : Nat
  risk_score : Nat
  risk_level : RiskLevel
  default_probability : Nat
  recommended_max_loan : Nat
  last_calculated : Int
  factors_count : Nat
  deriving DecidableEq

/-- The ledger state: the five record families, addressed by their seeds.
Loans are keyed by (borrower key, loan_id), payment records by
(loan address, installment number), mirroring the PDA seeds in the
accounts structs. -/
structure Chain where
  program_state : Option LoanProgramState
  profiles : Nat → Option UserProfile
  loans : Nat × Nat → Option Loan
  payments : (Nat × Nat) × Nat → Option PaymentRecord
  risk_profiles : Nat → Option RiskProfile

/-- The empty ledger: no record exists yet. -/
def emptyChain : Chain :=
  { program_state := none
    profiles := fun _ => none
    loans := fun _ => none
    payments := fun _ => none
    risk_profiles := fun _ => none }

/-- Store a user profile at its key. -/
def setProfile (c : Chain) (k : Nat) (p : UserProfile) : Chain :=
  { c with profiles := fun q => if q = k then some p else c.profiles q }

/-- Store a loan at its key. -/
def setLoan (c : Chain) (k : Nat × Nat) (l : Loan) : Chain :=
  { c with loans := fun q => if q = k then some l else c.loans q }

/-- Store a payment record at its key. -/
def setPayment (c : Chain) (k : (Nat × Nat) × Nat) (p : PaymentRecord) : Chain :=
  { c with payments := fun q => if q = k then some p else c.payments q }

/-- Store a risk profile at its key. -/
def setRisk (c : Chain) (k : Nat) (r : RiskProfile) : Chain :=
  { c with risk_profiles := fun q => if q = k then some r else c.risk_profiles q }

/-!
Instruction handlers.  Each mirrors the corresponding file under
instructions/, preceded by the account resolution declared in its
accounts struct (account loading, init duplicate checks, has_one
constraints) in struct-field order, as the runtime performs it before the
handler body runs.
-/

/-- Handler of instructions/initialize.rs: creates the program state
record (fee_percentage at most 1000, paused false, zeroed counters). -/
def initProgram (c : Chain) (authority fee_percentage : Nat) : Except TxError Chain :=
  if (c.program_state).isSome then .error .accountAlreadyInUse
  else if ¬ fee_percentage ≤ 1000 then .error (.program .InvalidInterestRate)
  else .ok { c with program_state := some (
    { authority := authority
      total_users := 0
      total_loans := 0
      total_volume := 0
      fee_percentage := fee_percentage
      paused := false : LoanProgramState } ) }

/-- Handler of instructions/register_user.rs: initializes the caller's
UserProfile (credit score 500, risk level Medium, zeroed counters) and
increments ProgramState.total_users with checked addition. -/
def register_user (c : Chain) (authority : Nat) (full_name : String)
    (monthly_income : Nat) (employment_type : EmploymentType) (now : Int) :
    Except TxError Chain :=
  if (c.profiles authority).isSome then .error .accountAlreadyInUse
  else match c.program_state with
  | none => .error .accountNotFound
  | some ps =>
    if ps.paused then .error (.program .ProgramPaused)
    else if ¬ full_name.length ≤ 100 then .error (.program .NameTooLong)
    else if monthly_income = 0 then .error (.program .IncomeTooLow)
    else match checkedAdd U64CAP ps.total_users 1 with
    | none => .error (.program .MathOverflow)
    | some tu =>
      .ok { (setProfile c authority
        { authority := authority
          full_name := full_name
          monthly_income := monthly_income
          employment_type := employment_type
          total_loans := 0
          active_loans := 0
          completed_loans := 0
          defaulted_loans := 0
          total_borrowed := 0
          total_repaid := 0
          on_time_payments := 0
          late_payments := 0
          missed_payments := 0
          credit_score := 500
          risk_level := RiskLevel.Medium
          registration_timestamp := now
          last_updated := now }) with
        program_state := some ({ ps with total_users := tu }) }

/-- Handler of instructions/update_user_profile.rs: owner-only update of
income (must stay positive) and employment category. -/
def update_user_profile (c : Chain) (authority : Nat)
    (monthly_income : Option Nat) (employment_type : Option EmploymentType)
    (now : Int) : Except TxError Chain :=
  match c.profiles authority with
  | none => .error .accountNotFound
  | some profile =>
    if profile.authority ≠ authority then .error (.program .Unauthorized)
    else match monthly_income with
    | some income =>
      if income = 0 then .error (.program .IncomeTooLow)
      else
        .ok (setProfile c authority
          { profile with
            monthly_income := income
            employment_type := employment_type.getD profile.employment_type
            last_updated := now })
    | none =>
      .ok (setProfile c authority
        { profile with
          employment_type := employment_type.getD profile.employment_type
          last_updated := now })

/-- Handler of instructions/create_loan.rs.  The source computes
monthly_installment with IEEE-754 f64 arithmetic (powf) and truncates it to
u64; floating point is outside this embedding, so the computed installment
enters as the parameter monthly_installment.  (The integer branch for a
zero monthly rate is unreachable: interest_rate is validated positive, and
interest_rate / 12 / 10000 is nonzero in f64 for every positive u16.)
Everything else — validation order, checked arithmetic, field
initialization, aggregate updates — mirrors the source. -/
def create_loan (c : Chain) (user_authority principal_amount interest_rate
    tenure_months : Nat) (start_timestamp : Int) (monthly_installment : Nat)
    (now : Int) : Except TxError Chain :=
  match c.profiles user_authority with
  | none => .error .accountNotFound
  | some profile =>
    match c.program_state with
    | none => .error .accountNotFound
    | some ps =>
      if (c.loans (user_authority, ps.total_loans)).isSome then .error .accountAlreadyInUse
      else if ps.paused then .error (.program .ProgramPaused)
      else if ¬ (5000000000 ≤ principal_amount ∧ principal_amount ≤ 500000000000) then
        .error (.program .InvalidLoanAmount)
      else if ¬ (0 < interest_rate ∧ interest_rate ≤ 3000) then
        .error (.program .InvalidInterestRate)
      else if ¬ (3 ≤ tenure_months ∧ tenure_months ≤ 60) then
        .error (.program .InvalidTenure)
      else if profile.active_loans ≠ 0 then .error (.program .ActiveLoanExists)
      else match checkedMul U64CAP monthly_installment tenure_months with
      | none => .error (.program .MathOverflow)
      | some total_amount =>
        match checkedAdd U16CAP profile.total_loans 1 with
        | none => .error (.program .MathOverflow)
        | some ptl =>
          match checkedAdd U8CAP profile.active_loans 1 with
          | none => .error (.program .MathOverflow)
          | some pal =>
            match checkedAdd U64CAP profile.total_borrowed principal_amount with
            | none => .error (.program .MathOverflow)
            | some ptb =>
              match checkedAdd U64CAP ps.total_loans 1 with
              | none => .error (.program .MathOverflow)
              | some stl =>
                match checkedAdd U64CAP ps.total_volume principal_amount with
                | none => .error (.program .MathOverflow)
                | some stv =>
                  .ok { (setLoan (setProfile c user_authority
                    { profile with
                      total_loans := ptl
                      active_loans := pal
                      total_borrowed := ptb
                      last_updated := now })
                    (user_authority, ps.total_loans)
                    { user := user_authority
                      loan_id := ps.total_loans
                      principal_amount := principal_amount
                      interest_rate := interest_rate
                      tenure_months := tenure_months
                      monthly_installment := monthly_installment
                      total_amount := total_amount
                      outstanding_balance := total_amount
                      total_repaid := 0
                      total_fines := 0
                      start_timestamp := start_timestamp
                      end_timestamp := start_timestamp + (tenure_months : Int) * (30 * 24 * 60 * 60)
                      status := LoanStatus.Active
                      created_timestamp := now
                      completed_timestamp := none
                      defaulted_timestamp := none }) with
                    program_state := some ({ ps with total_loans := stl, total_volume := stv }) }

/-- Lateness and fine computation inlined in instructions/record_payment.rs
(lines 61 to 89): due date at loan start plus installment x 30 days, a
2-day grace window, days late as the i64 day quotient cast to u16
(truncating), and the fine computed as installment x 50 x days_late / 10000
in checked u128 arithmetic before the u64 narrowing; none signals
MathOverflow. -/
def assessPayment (loanStart : Int) (installment_number monthly_installment : Nat)
    (now : Int) : Option (Bool × Nat × Nat) :=
  let due_date := loanStart + (installment_number : Int) * (30 * 24 * 60 * 60)
  let grace_end := due_date + 2 * 24 * 60 * 60
  let on_time := now ≤ grace_end
  let days_late : Nat := if on_time then 0 else ((now - grace_end).toNat / (24 * 60 * 60)) % U16CAP
  if 0 < days_late then
    match checkedMul U128CAP monthly_installment 50 with
    | none => none
    | some x =>
      match checkedMul U128CAP x days_late with
      | none => none
      | some y => some (on_time, days_late, y / 10000 % U64CAP)
  else some (on_time, days_late, 0)

/-- Handler of instructions/record_payment.rs, preceded by the account
resolution of its accounts struct: the loan and profile are loaded, the
loan's has_one user constraint is checked, and the payment record is
initialized (failing if one already exists for this installment).  The
handler then validates, assesses lateness and fine, requires the amount to
cover installment plus fine, stores the payment record, and updates loan
(checked total_repaid and total_fines, saturating outstanding_balance
subtraction) and profile (checked totals, saturating clamped credit
score). -/
def record_payment (c : Chain) (userKey loanId installment_number amount : Nat)
    (payment_hash : String) (now : Int) : Except TxError Chain :=
  match c.loans (userKey, loanId) with
  | none => .error .accountNotFound
  | some loan =>
    if loan.user ≠ userKey then .error .constraintViolated
    else match c.profiles userKey with
    | none => .error .accountNotFound
    | some profile =>
      if (c.payments ((userKey, loanId), installment_number)).isSome then
        .error .accountAlreadyInUse
      else if loan.status ≠ LoanStatus.Active then .error (.program .LoanNotActive)
      else if ¬ (0 < installment_number ∧ installment_number ≤ loan.tenure_months) then
        .error (.program .InvalidInstallmentNumber)
      else if amount = 0 then .error (.program .InvalidPaymentAmount)
      else if ¬ payment_hash.length ≤ 100 then .error (.program .InvalidStringFormat)
      else match assessPayment loan.start_timestamp installment_number
        loan.monthly_installment now with
      | none => .error (.program .MathOverflow)
      | some (on_time, days_late, fine_amount) =>
        if amount < loan.monthly_installment + fine_amount then
          .error (.program .InsufficientPayment)
        else match checkedAdd U64CAP loan.total_repaid amount with
        | none => .error (.program .MathOverflow)
        | some ltr =>
          match checkedAdd U64CAP loan.total_fines fine_amount with
          | none => .error (.program .MathOverflow)
          | some ltf =>
            match checkedAdd U64CAP profile.total_repaid amount with
            | none => .error (.program .MathOverflow)
            | some ptr =>
              match (if on_time then checkedAdd U16CAP profile.on_time_payments 1
                     else checkedAdd U16CAP profile.late_payments 1) with
              | none => .error (.program .MathOverflow)
              | some cnt =>
                .ok (setPayment (setProfile (setLoan c (userKey, loanId)
                  { loan with
                    total_repaid := ltr
                    outstanding_balance := loan.outstanding_balance - amount
                    total_fines := ltf })
                  userKey
                  (if on_time then
                    { profile with
                      total_repaid := ptr
                      on_time_payments := cnt
                      credit_score := min (satAdd U16CAP profile.credit_score 2) 850
                      last_updated := now }
                   else
                    { profile with
                      total_repaid := ptr
                      late_payments := cnt
                      credit_score := max (profile.credit_score - 5) 300
                      last_updated := now }))
                  ((userKey, loanId), installment_number)
                  { loan := (userKey, loanId)
                    user := userKey
                    installment_number := installment_number
                    amount := amount
                    fine_amount := fine_amount
                    payment_timestamp := now
                    payment_hash := payment_hash
                    on_time := on_time
                    days_late := days_late })

/-- The income multiplier per risk tier from update_risk_score.rs. -/
def incomeMultiplier : RiskLevel → Nat
  | RiskLevel.Low => 10
  | RiskLevel.Medium => 6
  | RiskLevel.High => 3
  | RiskLevel.Critical => 1

/-- Handler of instructions/update_risk_score.rs: validates the score and
default probability bounds, overwrites the profile's credit_score and
risk_level with the supplied values, and rebuilds the RiskProfile with the
income x risk-tier multiplier recommendation. -/
def update_risk_score (c : Chain) (user risk_score : Nat) (risk_level : RiskLevel)
    (default_probability : Nat) (now : Int) : Except TxError Chain :=
  match c.profiles user with
  | none => .error .accountNotFound
  | some profile =>
    if ¬ risk_score ≤ 1000 then .error (.program .InvalidRiskScore)
    else if ¬ default_probability ≤ 10000 then .error (.program .InvalidDefaultProbability)
    else
      match checkedMul U64CAP profile.monthly_income (incomeMultiplier risk_level) with
      | none => .error (.program .MathOverflow)
      | some rml =>
        .ok (setRisk (setProfile c user
          { profile with
            credit_score := risk_score
            risk_level := risk_level
            last_updated := now })
          user
          { user := user
            risk_score := risk_score
            risk_level := risk_level
            default_probability := default_probability
            recommended_max_loan := rml
            last_calculated := now
            factors_count := 5 })

/-- Handler of instructions/mark_loan_defaulted.rs: requires an Active loan
with positive outstanding balance, marks it Defaulted, decrements
active_loans (saturating), increments defaulted_loans (checked u8), drops
the credit score by 100 (saturating, floored at 300), forces risk level
Critical. -/
def mark_loan_defaulted (c : Chain) (userKey loanId : Nat) (now : Int) :
    Except TxError Chain :=
  match c.loans (userKey, loanId) with
  | none => .error .accountNotFound
  | some loan =>
    match c.profiles loan.user with
    | none => .error .accountNotFound
    | some profile =>
      if loan.status ≠ LoanStatus.Active then .error (.program .LoanNotActive)
      else if loan.outstanding_balance = 0 then .error (.program .LoanAlreadyCompleted)
      else match checkedAdd U8CAP profile.defaulted_loans 1 with
      | none => .error (.program .MathOverflow)
      | some dl =>
        .ok (setProfile (setLoan c (userKey, loanId)
          { loan with
            status := LoanStatus.Defaulted
            defaulted_timestamp := some now })
          loan.user
          { profile with
            active_loans := profile.active_loans - 1
            defaulted_loans := dl
            credit_score := max (profile.credit_score - 100) 300
            risk_level := RiskLevel.Critical
            last_updated := now })

/-- Handler of instructions/mark_loan_completed.rs: requires an Active loan
with zero outstanding balance, marks it Completed, decrements active_loans
(saturating), increments completed_loans (checked u16), raises the credit
score by 20 (saturating, capped at 850). -/
def mark_loan_completed (c : Chain) (userKey loanId : Nat) (now : Int) :
    Except TxError Chain :=
  match c.loans (userKey, loanId) with
  | none => .error .accountNotFound
  | some loan =>
    match c.profiles loan.user with
    | none => .error .accountNotFound
    | some profile =>
      if loan.status ≠ LoanStatus.Active then .error (.program .LoanNotActive)
      else if loan.outstanding_balance ≠ 0 then .error (.program .InsufficientPayment)
      else match checkedAdd U16CAP profile.completed_loans 1 with
      | none => .error (.program .MathOverflow)
      | some cl =>
        .ok (setProfile (setLoan c (userKey, loanId)
          { loan with
            status := LoanStatus.Completed
            completed_timestamp := some now })
          loan.user
          { profile with
            active_loans := profile.active_loans - 1
            completed_loans := cl
            credit_score := min (satAdd U16CAP profile.credit_score 20) 850
            last_updated := now })

/-- Handler of instructions/waive_fine.rs: loads the loan, the profile and
the existing payment record; requires a signer but does not compare it with
any stored administrator identity (the accounts struct declares admin as a
plain Signer with no constraint); requires the waived amount to be at most
the installment's recorded fine, then reduces both the loan's
outstanding_balance and total_fines by the waived amount with saturating
subtraction. -/
def waive_fine (c : Chain) (userKey loanId installment_number waived_amount
    signer : Nat) (now : Int) : Except TxError Chain :=
  match c.loans (userKey, loanId) with
  | none => .error .accountNotFound
  | some loan =>
    match c.profiles loan.user with
    | none => .error .accountNotFound
    | some _profile =>
      match c.payments ((userKey, loanId), installment_number) with
      | none => .error .accountNotFound
      | some payment_record =>
        if ¬ waived_amount ≤ payment_record.fine_amount then
          .error (.program .InvalidPaymentAmount)
        else
          .ok (setLoan c (userKey, loanId)
            { loan with
              outstanding_balance := loan.outstanding_balance - waived_amount
              total_fines := loan.total_fines - waived_amount })

/-- One caller-facing invocation: an instruction name together with its
arguments (lib.rs entry points), the trusted timestamp included. -/
inductive Op
  | initProg (authority fee_percentage : Nat)
  | register (authority : Nat) (full_name : String) (monthly_income : Nat)
      (employment_type : EmploymentType) (now : Int)
  | updateProfile (authority : Nat) (monthly_income : Option Nat)
      (employment_type : Option EmploymentType) (now : Int)
  | createLoan (user_authority principal_amount interest_rate tenure_months : Nat)
      (start_timestamp : Int) (monthly_installment : Nat) (now : Int)
  | recordPayment (userKey loanId installment_number amount : Nat)
      (payment_hash : String) (now : Int)
  | updateRisk (user risk_score : Nat) (risk_level : RiskLevel)
      (default_probability : Nat) (now : Int)
  | markDefaulted (userKey loanId : Nat) (now : Int)
  | markCompleted (userKey loanId : Nat) (now : Int)
  | waiveTheFine (userKey loanId installment_number waived_amount signer : Nat) (now : Int)

/-- Dispatch an invocation to its handler, as lib.rs does. -/
def applyOp (c : Chain) : Op → Except TxError Chain
  | .initProg a f => initProgram c a f
  | .register a n i e now => register_user c a n i e now
  | .updateProfile a i e now => update_user_profile c a i e now
  | .createLoan u p r t st mi now => create_loan c u p r t st mi now
  | .recordPayment u l k a h now => record_payment c u l k a h now
  | .updateRisk u s lv d now => update_risk_score c u s lv d now
  | .markDefaulted u l now => mark_loan_defaulted c u l now
  | .markCompleted u l now => mark_loan_completed c u l now
  | .waiveTheFine u l k w s now => waive_fine c u l k w s now

/-- The ledger's commit discipline (spec section 5): a successful transition
commits the new records, a failed one rolls everything back and surfaces the
error kind to the caller. -/
def ledgerStep (c : Chain) (op : Op) : Chain × Option TxError :=
  match applyOp c op with
  | .ok c' => (c', none)
  | .error e => (c, some e)

/-- True exactly for UpdateRiskScore invocations. -/
def Op.isUpdateRisk : Op → Bool
  | .updateRisk _ _ _ _ _ => true
  | _ => false

/-- A ledger state reachable from the empty ledger by successful
transitions. -/
inductive Reachable : Chain → Prop
  | empty : Reachable emptyChain
  | step (c : Chain) (op : Op) (c' : Chain) :
      Reachable c → applyOp c op = .ok c' → Reachable c'

/-- Every stored profile has at most one active loan. -/
def ActiveInv (c : Chain) : Prop :=
  ∀ p prof, c.profiles p = some prof → prof.active_loans ≤ 1

/-- No loan record sits at or beyond the running loan counter (and none at
all before the program state exists). -/
def FreshLoanInv (c : Chain) : Prop :=
  ∀ u i, (∀ ps, c.program_state = some ps → ps.total_loans ≤ i) →
    c.loans (u, i) = none

/-- Every stored profile's credit score lies within the documented
300 to 850 band. -/
def CreditInv (c : Chain) : Prop :=
  ∀ p prof, c.profiles p = some prof →
    300 ≤ prof.credit_score ∧ prof.credit_score ≤ 850

/-- Extract the committed chain of a successful transition, with a default
for the failure case (used only to name concrete states in examples). -/
def okOr (r : Except TxError Chain) (d : Chain) : Chain :=
  match r with
  | .ok c => c
  | .error _ => d

/-- Whether a transition succeeded. -/
def isSuccess (r : Except TxError Chain) : Bool :=
  match r with
  | .ok _ => true
  | .error _ => false

/-- Default program state used only to read back concrete examples. -/
def defaultProgramState : LoanProgramState :=
  { authority := 0, total_users := 0, total_loans := 0, total_volume := 0
    fee_percentage := 0, paused := false }

/-- Default profile used only to read back concrete examples. -/
def defaultProfile : UserProfile :=
  { authority := 0, full_name := "", monthly_income := 0
    employment_type := EmploymentType.Salaried, total_loans := 0
    active_loans := 0, completed_loans := 0, defaulted_loans := 0
    total_borrowed := 0, total_repaid := 0, on_time_payments := 0
    late_payments := 0, missed_payments := 0, credit_score := 0
    risk_level := RiskLevel.Medium, registration_timestamp := 0
    last_updated := 0 }

/-- Default loan used only to read back concrete examples. -/
def defaultLoan : Loan :=
  { user := 0, loan_id := 0, principal_amount := 0, interest_rate := 0
    tenure_months := 0, monthly_installment := 0, total_amount := 0
    outstanding_balance := 0, total_repaid := 0, total_fines := 0
    start_timestamp := 0, end_timestamp := 0, status := LoanStatus.Active
    created_timestamp := 0, completed_timestamp := none
    defaulted_timestamp := none }

/-- Default payment record used only to read back concrete examples. -/
def defaultPayment : PaymentRecord :=
  { loan := (0, 0), user := 0, installment_number := 0, amount := 0
    fine_amount := 0, payment_timestamp := 0, payment_hash := ""
    on_time := false, days_late := 0 }

/-- Read the program state of a concrete chain. -/
def psOf (c : Chain) : LoanProgramState := (c.program_state).getD defaultProgramState

/-- Read a profile of a concrete chain. -/
def profOf (c : Chain) (p : Nat) : UserProfile := (c.profiles p).getD defaultProfile

/-- Read a loan of a concrete chain. -/
def loanOf (c : Chain) (k : Nat × Nat) : Loan := (c.loans k).getD defaultLoan

/-- Read a payment record of a concrete chain. -/
def payOf (c : Chain) (k : (Nat × Nat) × Nat) : PaymentRecord :=
  (c.payments k).getD defaultPayment

/-- Concrete run: the program initialized by authority 1. -/
def chainA : Chain := okOr (initProgram emptyChain 1 100) emptyChain

/-- Concrete run: user 5 registered with income 100000. -/
def chainB : Chain :=
  okOr (register_user chainA 5 "ali" 100000 EmploymentType.Salaried 0) emptyChain

/-- Concrete run: a loan for user 5 — principal 10000000000, 12 percent a
year, 12 months, monthly installment 888487886 (the truncated
floating-point amortization result enters as the oracle parameter), so
total_amount and outstanding_balance are 10661854632. -/
def chainC : Chain :=
  okOr (create_loan chainB 5 10000000000 1200 12 0 888487886 0) emptyChain

/-- Concrete run: installment 1 paid 5 days after the grace window
(due date 2592000, grace end 2764800, paid at 3196800), so days_late = 5,
fine = 888487886 x 50 x 5 / 10000 = 22212197, and the paid amount
910700083 covers installment plus fine exactly. -/
def chainP1 : Chain :=
  okOr (record_payment chainC 5 0 1 910700083 "hx" 3196800) emptyChain

/-- Concrete run: installment 2 overpaid on time with 20000000000, far more
than the outstanding balance 9751154549, driving the balance to 0. -/
def chainD : Chain :=
  okOr (record_payment chainP1 5 0 2 20000000000 "hy" 5184000) emptyChain

/-- Concrete handcrafted ledger with one profile in the documented
credit band, used to exercise the credit-bound theorem. -/
def profW : UserProfile :=
  { authority := 5, full_name := "w", monthly_income := 1000
    employment_type := EmploymentType.Salaried, total_loans := 0
    active_loans := 0, completed_loans := 0, defaulted_loans := 0
    total_borrowed := 0, total_repaid := 0, on_time_payments := 0
    late_payments := 0, missed_payments := 0, credit_score := 500
    risk_level := RiskLevel.Medium, registration_timestamp := 0
    last_updated := 0 }

/-- A ledger holding exactly the profile profW and an unpaused program
state. -/
def chainW : Chain :=
  { program_state := some (
      { authority := 1, total_users := 1, total_loans := 0, total_volume := 0
        fee_percentage := 100, paused := false })
    profiles := fun q => if q = 5 then some profW else none
    loans := fun _ => none
    payments := fun _ => none
    risk_profiles := fun _ => none }

/-- Concrete run: installment 3 paid on time after the balance already
reached 0 (the balance stays 0 by saturation). -/
def chainE : Chain :=
  okOr (record_payment chainD 5 0 3 888487886 "hz" 7776000) emptyChain

/-- Concrete run: the zero-balance loan of chainD marked completed. -/
def chainF : Chain := okOr (mark_loan_completed chainD 5 0 10) emptyChain

/-- Concrete run: an administrator risk assessment writing risk score 0
straight into user 5's credit score. -/
def chainR : Chain :=
  okOr (update_risk_score chainB 5 0 RiskLevel.High 5000 7) emptyChain

/-- Concrete run: profile income updated on the handcrafted ledger. -/
def chainW2 : Chain :=
  okOr (applyOp chainW (Op.updateProfile 5 (some 2000) none 1)) emptyChain

/-- A successful checked addition returns the exact sum, which fits. -/
theorem checkedAdd_some {cap a b x : Nat} (h : checkedAdd cap a b = some x) :
    x = a + b ∧ a + b < cap := by
  unfold checkedAdd at h
  split at h
  · exact ⟨(Option.some.injEq _ _).mp h |>.symm, by assumption⟩
  · exact Option.noConfusion h

/-- A successful checked multiplication returns the exact product, which
fits. -/
theorem checkedMul_some {cap a b x : Nat} (h : checkedMul cap a b = some x) :
    x = a * b ∧ a * b < cap := by
  unfold checkedMul at h
  split at h
  · exact ⟨(Option.some.injEq _ _).mp h |>.symm, by assumption⟩
  · exact Option.noConfusion h

/-- Characterization of a successful RecordPayment: the guards it passed,
the lateness assessment it used, and the exact records it committed. -/
theorem record_payment_ok_spec {c : Chain} {u lid n amt : Nat} {hash : String}
    {now : Int} {c' : Chain}
    (h : record_payment c u lid n amt hash now = .ok c') :
    ∃ loan profile ot dl fine,
      c.loans (u, lid) = some loan ∧
      loan.user = u ∧
      c.profiles u = some profile ∧
      c.payments ((u, lid), n) = none ∧
      loan.status = LoanStatus.Active ∧
      0 < n ∧ n ≤ loan.tenure_months ∧ 0 < amt ∧ hash.length ≤ 100 ∧
      assessPayment loan.start_timestamp n loan.monthly_installment now =
        some (ot, dl, fine) ∧
      loan.monthly_installment + fine ≤ amt ∧
      loan.total_repaid + amt < U64CAP ∧ loan.total_fines + fine < U64CAP ∧
      c'.loans (u, lid) = some
        { loan with
          total_repaid := loan.total_repaid + amt
          outstanding_balance := loan.outstanding_balance - amt
          total_fines := loan.total_fines + fine } ∧
      c'.profiles u = some
        (if ot then
          { profile with
            total_repaid := profile.total_repaid + amt
            on_time_payments := profile.on_time_payments + 1
            credit_score := min (satAdd U16CAP profile.credit_score 2) 850
            last_updated := now }
         else
          { profile with
            total_repaid := profile.total_repaid + amt
            late_payments := profile.late_payments + 1
            credit_score := max (profile.credit_score - 5) 300
            last_updated := now }) ∧
      c'.payments ((u, lid), n) = some
        { loan := (u, lid)
          user := u
          installment_number := n
          amount := amt
          fine_amount := fine
          payment_timestamp := now
          payment_hash := hash
          on_time := ot
          days_late := dl } ∧
      (∀ q, q ≠ u → c'.profiles q = c.profiles q) ∧
      (∀ k, k ≠ (u, lid) → c'.loans k = c.loans k) ∧
      (∀ k, k ≠ ((u, lid), n) → c'.payments k = c.payments k) ∧
      c'.program_state = c.program_state ∧
      c'.risk_profiles = c.risk_profiles := by
  unfold record_payment at h
  split at h
  · exact Except.noConfusion h
  rename_i loan hl
  split at h
  · exact Except.noConfusion h
  rename_i huser
  split at h
  · exact Except.noConfusion h
  rename_i profile hp
  split at h
  · exact Except.noConfusion h
  rename_i hpay
  split at h
  · exact Except.noConfusion h
  rename_i hstatus
  split at h
  · exact Except.noConfusion h
  rename_i hinst
  split at h
  · exact Except.noConfusion h
  rename_i hamt
  split at h
  · exact Except.noConfusion h
  rename_i hhash
  split at h
  · exact Except.noConfusion h
  rename_i on_time days_late fine_amount hassess
  split at h
  · exact Except.noConfusion h
  rename_i hcover
  split at h
  · exact Except.noConfusion h
  rename_i ltr hltr
  split at h
  · exact Except.noConfusion h
  rename_i ltf hltf
  split at h
  · exact Except.noConfusion h
  rename_i ptr hptr
  split at h
  · exact Except.noConfusion h
  rename_i cnt hcnt
  obtain ⟨hltr1, hltr2⟩ := checkedAdd_some hltr
  obtain ⟨hltf1, hltf2⟩ := checkedAdd_some hltf
  obtain ⟨hptr1, _⟩ := checkedAdd_some hptr
  cases h
  refine ⟨loan, profile, on_time, days_late, fine_amount, hl, ?_, hp, ?_, ?_, ?_, ?_, ?_, ?_,
    hassess, ?_, ?_, ?_, ?_, ?_, ?_, ?_, ?_, ?_, ?_, ?_⟩
  · exact Decidable.not_not.mp huser
  · exact Option.not_isSome_iff_eq_none.mp hpay
  · exact Decidable.not_not.mp hstatus
  · exact (Decidable.not_not.mp hinst).1
  · exact (Decidable.not_not.mp hinst).2
  · exact Nat.pos_of_ne_zero hamt
  · exact Decidable.not_not.mp hhash
  · exact Nat.le_of_not_lt hcover
  · exact hltr1 ▸ hltr2
  · exact hltf1 ▸ hltf2
  · simp [setPayment, setProfile, setLoan, hltr1, hltf1]
  · cases on_time with
    | true =>
      obtain ⟨hc1, _⟩ := checkedAdd_some (by simpa using hcnt)
      simp [setPayment, setProfile, setLoan, hptr1, hc1]
    | false =>
      obtain ⟨hc1, _⟩ := checkedAdd_some (by simpa using hcnt)
      simp [setPayment, setProfile, setLoan, hptr1, hc1]
  · simp [setPayment, setProfile, setLoan]
  · intro q hq
    simp [setPayment, setProfile, setLoan, hq]
  · intro k hk
    simp [setPayment, setProfile, setLoan, hk]
  · intro k hk
    simp [setPayment, setProfile, setLoan, hk]
  · simp [setPayment, setProfile, setLoan]
  · simp [setPayment, setProfile, setLoan]

/-- Characterization of successful program initialization. -/
theorem initProgram_ok_spec {c : Chain} {a f : Nat} {c' : Chain}
    (h : initProgram c a f = .ok c') :
    c.program_state = none ∧ f ≤ 1000 ∧
    c'.program_state = some
      { authority := a, total_users := 0, total_loans := 0, total_volume := 0
        fee_percentage := f, paused := false } ∧
    c'.profiles = c.profiles ∧ c'.loans = c.loans ∧
    c'.payments = c.payments ∧ c'.risk_profiles = c.risk_profiles := by
  unfold initProgram at h
  split at h
  · exact Except.noConfusion h
  rename_i hdup
  split at h
  · exact Except.noConfusion h
  rename_i hfee
  cases h
  exact ⟨Option.not_isSome_iff_eq_none.mp hdup, Decidable.not_not.mp hfee,
    rfl, rfl, rfl, rfl, rfl⟩

/-- Characterization of a successful RegisterUser. -/
theorem register_user_ok_spec {c : Chain} {a : Nat} {nm : String} {inc : Nat}
    {et : EmploymentType} {now : Int} {c' : Chain}
    (h : register_user c a nm inc et now = .ok c') :
    ∃ ps,
      c.profiles a = none ∧ c.program_state = some ps ∧ ps.paused = false ∧
      nm.length ≤ 100 ∧ 0 < inc ∧
      c'.profiles a = some
        { authority := a, full_name := nm, monthly_income := inc
          employment_type := et, total_loans := 0, active_loans := 0
          completed_loans := 0, defaulted_loans := 0, total_borrowed := 0
          total_repaid := 0, on_time_payments := 0, late_payments := 0
          missed_payments := 0, credit_score := 500
          risk_level := RiskLevel.Medium, registration_timestamp := now
          last_updated := now } ∧
      (∀ q, q ≠ a → c'.profiles q = c.profiles q) ∧
      c'.program_state = some ({ ps with total_users := ps.total_users + 1 }) ∧
      c'.loans = c.loans ∧ c'.payments = c.payments ∧
      c'.risk_profiles = c.risk_profiles := by
  unfold register_user at h
  split at h
  · exact Except.noConfusion h
  rename_i hdup
  split at h
  · exact Except.noConfusion h
  rename_i ps hps
  split at h
  · exact Except.noConfusion h
  rename_i hpaused
  split at h
  · exact Except.noConfusion h
  rename_i hname
  split at h
  · exact Except.noConfusion h
  rename_i hinc
  split at h
  · exact Except.noConfusion h
  rename_i tu htu
  obtain ⟨htu1, _⟩ := checkedAdd_some htu
  cases h
  refine ⟨ps, Option.not_isSome_iff_eq_none.mp hdup, hps,
    Bool.not_eq_true _ ▸ hpaused, Decidable.not_not.mp hname,
    Nat.pos_of_ne_zero hinc, ?_, ?_, ?_, rfl, rfl, rfl⟩
  · simp [setProfile]
  · intro q hq
    simp [setProfile, hq]
  · simp [setProfile, htu1]

/-- Characterization of a successful UpdateUserProfile: only income,
employment type and timestamp can change, and only on the caller's own
profile. -/
theorem update_user_profile_ok_spec {c : Chain} {a : Nat} {inc : Option Nat}
    {et : Option EmploymentType} {now : Int} {c' : Chain}
    (h : update_user_profile c a inc et now = .ok c') :
    ∃ profile prof',
      c.profiles a = some profile ∧ profile.authority = a ∧
      c'.profiles a = some prof' ∧
      prof'.active_loans = profile.active_loans ∧
      prof'.credit_score = profile.credit_score ∧
      (∀ q, q ≠ a → c'.profiles q = c.profiles q) ∧
      c'.program_state = c.program_state ∧ c'.loans = c.loans ∧
      c'.payments = c.payments ∧ c'.risk_profiles = c.risk_profiles := by
  unfold update_user_profile at h
  split at h
  · exact Except.noConfusion h
  rename_i profile hp
  split at h
  · exact Except.noConfusion h
  rename_i hauth
  split at h
  · rename_i _ income
    split at h
    · exact Except.noConfusion h
    cases h
    refine ⟨profile,
      { profile with
        monthly_income := income
        employment_type := et.getD profile.employment_type
        last_updated := now },
      hp, Decidable.not_not.mp hauth, by simp [setProfile],
      rfl, rfl, ?_, rfl, rfl, rfl, rfl⟩
    intro q hq
    simp [setProfile, hq]
  · cases h
    refine ⟨profile,
      { profile with
        employment_type := et.getD profile.employment_type
        last_updated := now },
      hp, Decidable.not_not.mp hauth, by simp [setProfile],
      rfl, rfl, ?_, rfl, rfl, rfl, rfl⟩
    intro q hq
    simp [setProfile, hq]

/-- Characterization of a successful CreateLoan: validation results, the
freshly created loan, and the aggregate updates. -/
theorem create_loan_ok_spec {c : Chain} {u p r t : Nat} {st : Int} {mi : Nat}
    {now : Int} {c' : Chain}
    (h : create_loan c u p r t st mi now = .ok c') :
    ∃ profile ps,
      c.profiles u = some profile ∧ c.program_state = some ps ∧
      c.loans (u, ps.total_loans) = none ∧ ps.paused = false ∧
      5000000000 ≤ p ∧ p ≤ 500000000000 ∧ 0 < r ∧ r ≤ 3000 ∧
      3 ≤ t ∧ t ≤ 60 ∧ profile.active_loans = 0 ∧ mi * t < U64CAP ∧
      c'.loans (u, ps.total_loans) = some
        { user := u, loan_id := ps.total_loans, principal_amount := p
          interest_rate := r, tenure_months := t, monthly_installment := mi
          total_amount := mi * t, outstanding_balance := mi * t
          total_repaid := 0, total_fines := 0, start_timestamp := st
          end_timestamp := st + (t : Int) * (30 * 24 * 60 * 60)
          status := LoanStatus.Active, created_timestamp := now
          completed_timestamp := none, defaulted_timestamp := none } ∧
      c'.profiles u = some
        ({ profile with
          total_loans := profile.total_loans + 1
          active_loans := profile.active_loans + 1
          total_borrowed := profile.total_borrowed + p
          last_updated := now }) ∧
      (∀ q, q ≠ u → c'.profiles q = c.profiles q) ∧
      (∀ k, k ≠ (u, ps.total_loans) → c'.loans k = c.loans k) ∧
      c'.program_state = some
        ({ ps with
          total_loans := ps.total_loans + 1
          total_volume := ps.total_volume + p }) ∧
      c'.payments = c.payments ∧ c'.risk_profiles = c.risk_profiles := by
  unfold create_loan at h
  split at h
  · exact Except.noConfusion h
  rename_i profile hprof
  split at h
  · exact Except.noConfusion h
  rename_i ps hps
  split at h
  · exact Except.noConfusion h
  rename_i hdup
  split at h
  · exact Except.noConfusion h
  rename_i hpaused
  split at h
  · exact Except.noConfusion h
  rename_i hamount
  split at h
  · exact Except.noConfusion h
  rename_i hrate
  split at h
  · exact Except.noConfusion h
  rename_i htenure
  split at h
  · exact Except.noConfusion h
  rename_i hactive
  split at h
  · exact Except.noConfusion h
  rename_i ta hta
  split at h
  · exact Except.noConfusion h
  rename_i ptl hptl
  split at h
  · exact Except.noConfusion h
  rename_i pal hpal
  split at h
  · exact Except.noConfusion h
  rename_i ptb hptb
  split at h
  · exact Except.noConfusion h
  rename_i stl hstl
  split at h
  · exact Except.noConfusion h
  rename_i stv hstv
  obtain ⟨hta1, hta2⟩ := checkedMul_some hta
  obtain ⟨hptl1, _⟩ := checkedAdd_some hptl
  obtain ⟨hpal1, _⟩ := checkedAdd_some hpal
  obtain ⟨hptb1, _⟩ := checkedAdd_some hptb
  obtain ⟨hstl1, _⟩ := checkedAdd_some hstl
  obtain ⟨hstv1, _⟩ := checkedAdd_some hstv
  cases h
  refine ⟨profile, ps, hprof, hps, Option.not_isSome_iff_eq_none.mp hdup,
    Bool.not_eq_true _ ▸ hpaused,
    (Decidable.not_not.mp hamount).1, (Decidable.not_not.mp hamount).2,
    (Decidable.not_not.mp hrate).1, (Decidable.not_not.mp hrate).2,
    (Decidable.not_not.mp htenure).1, (Decidable.not_not.mp htenure).2,
    Decidable.not_not.mp hactive, hta1 ▸ hta2, ?_, ?_, ?_, ?_, ?_, rfl, rfl⟩
  · simp [setLoan, setProfile, hta1]
  · simp [setLoan, setProfile, hptl1, hpal1, hptb1]
  · intro q hq
    simp [setLoan, setProfile, hq]
  · intro k hk
    simp [setLoan, setProfile, hk]
  · simp [setLoan, setProfile, hstl1, hstv1]

/-- Characterization of a successful UpdateRiskScore: the profile's credit
score is overwritten with the supplied risk score, bounded only by 1000. -/
theorem update_risk_score_ok_spec {c : Chain} {u rs : Nat} {lv : RiskLevel}
    {dp : Nat} {now : Int} {c' : Chain}
    (h : update_risk_score c u rs lv dp now = .ok c') :
    ∃ profile,
      c.profiles u = some profile ∧ rs ≤ 1000 ∧ dp ≤ 10000 ∧
      c'.profiles u = some
        ({ profile with credit_score := rs, risk_level := lv, last_updated := now }) ∧
      (∀ q, q ≠ u → c'.profiles q = c.profiles q) ∧
      c'.program_state = c.program_state ∧ c'.loans = c.loans ∧
      c'.payments = c.payments := by
  unfold update_risk_score at h
  split at h
  · exact Except.noConfusion h
  rename_i profile hp
  split at h
  · exact Except.noConfusion h
  rename_i hrs
  split at h
  · exact Except.noConfusion h
  rename_i hdp
  split at h
  · exact Except.noConfusion h
  rename_i rml hrml
  cases h
  refine ⟨profile, hp, Decidable.not_not.mp hrs, Decidable.not_not.mp hdp,
    ?_, ?_, rfl, rfl, rfl⟩
  · simp [setRisk, setProfile]
  · intro q hq
    simp [setRisk, setProfile, hq]

/-- Characterization of a successful MarkLoanDefaulted. -/
theorem mark_loan_defaulted_ok_spec {c : Chain} {u lid : Nat} {now : Int}
    {c' : Chain} (h : mark_loan_defaulted c u lid now = .ok c') :
    ∃ loan profile,
      c.loans (u, lid) = some loan ∧ c.profiles loan.user = some profile ∧
      loan.status = LoanStatus.Active ∧ 0 < loan.outstanding_balance ∧
      c'.loans (u, lid) = some
        ({ loan with status := LoanStatus.Defaulted, defaulted_timestamp := some now }) ∧
      c'.profiles loan.user = some
        ({ profile with
          active_loans := profile.active_loans - 1
          defaulted_loans := profile.defaulted_loans + 1
          credit_score := max (profile.credit_score - 100) 300
          risk_level := RiskLevel.Critical
          last_updated := now }) ∧
      (∀ q, q ≠ loan.user → c'.profiles q = c.profiles q) ∧
      (∀ k, k ≠ (u, lid) → c'.loans k = c.loans k) ∧
      c'.program_state = c.program_state ∧ c'.payments = c.payments ∧
      c'.risk_profiles = c.risk_profiles := by
  unfold mark_loan_defaulted at h
  split at h
  · exact Except.noConfusion h
  rename_i loan hl
  split at h
  · exact Except.noConfusion h
  rename_i profile hp
  split at h
  · exact Except.noConfusion h
  rename_i hstatus
  split at h
  · exact Except.noConfusion h
  rename_i hout
  split at h
  · exact Except.noConfusion h
  rename_i dl hdl
  obtain ⟨hdl1, _⟩ := checkedAdd_some hdl
  cases h
  refine ⟨loan, profile, hl, hp, Decidable.not_not.mp hstatus,
    Nat.pos_of_ne_zero hout, ?_, ?_, ?_, ?_, rfl, rfl, rfl⟩
  · simp [setProfile, setLoan]
  · simp [setProfile, setLoan, hdl1]
  · intro q hq
    simp [setProfile, setLoan, hq]
  · intro k hk
    simp [setProfile, setLoan, hk]

/-- Characterization of a successful MarkLoanCompleted: in particular the
loan was Active with zero outstanding balance. -/
theorem mark_loan_completed_ok_spec {c : Chain} {u lid : Nat} {now : Int}
    {c' : Chain} (h : mark_loan_completed c u lid now = .ok c') :
    ∃ loan profile,
      c.loans (u, lid) = some loan ∧ c.profiles loan.user = some profile ∧
      loan.status = LoanStatus.Active ∧ loan.outstanding_balance = 0 ∧
      c'.loans (u, lid) = some
        ({ loan with status := LoanStatus.Completed, completed_timestamp := some now }) ∧
      c'.profiles loan.user = some
        ({ profile with
          active_loans := profile.active_loans - 1
          completed_loans := profile.completed_loans + 1
          credit_score := min (satAdd U16CAP profile.credit_score 20) 850
          last_updated := now }) ∧
      (∀ q, q ≠ loan.user → c'.profiles q = c.profiles q) ∧
      (∀ k, k ≠ (u, lid) → c'.loans k = c.loans k) ∧
      c'.program_state = c.program_state ∧ c'.payments = c.payments ∧
      c'.risk_profiles = c.risk_profiles := by
  unfold mark_loan_completed at h
  split at h
  · exact Except.noConfusion h
  rename_i loan hl
  split at h
  · exact Except.noConfusion h
  rename_i profile hp
  split at h
  · exact Except.noConfusion h
  rename_i hstatus
  split at h
  · exact Except.noConfusion h
  rename_i hout
  split at h
  · exact Except.noConfusion h
  rename_i cl hcl
  obtain ⟨hcl1, _⟩ := checkedAdd_some hcl
  cases h
  refine ⟨loan, profile, hl, hp, Decidable.not_not.mp hstatus,
    Decidable.not_not.mp hout, ?_, ?_, ?_, ?_, rfl, rfl, rfl⟩
  · simp [setProfile, setLoan]
  · simp [setProfile, setLoan, hcl1]
  · intro q hq
    simp [setProfile, setLoan, hq]
  · intro k hk
    simp [setProfile, setLoan, hk]

/-- Characterization of a successful WaiveFine: no administrator identity is
consulted; the loan's outstanding balance and total fines both drop by the
waived amount with saturating subtraction, and nothing else changes. -/
theorem waive_fine_ok_spec {c : Chain} {u lid k w s : Nat} {now : Int}
    {c' : Chain} (h : waive_fine c u lid k w s now = .ok c') :
    ∃ loan rec,
      c.loans (u, lid) = some loan ∧
      c.payments ((u, lid), k) = some rec ∧
      w ≤ rec.fine_amount ∧
      c'.loans (u, lid) = some
        ({ loan with
          outstanding_balance := loan.outstanding_balance - w
          total_fines := loan.total_fines - w }) ∧
      (∀ k2, k2 ≠ (u, lid) → c'.loans k2 = c.loans k2) ∧
      c'.profiles = c.profiles ∧ c'.program_state = c.program_state ∧
      c'.payments = c.payments ∧ c'.risk_profiles = c.risk_profiles := by
  unfold waive_fine at h
  split at h
  · exact Except.noConfusion h
  rename_i loan hl
  split at h
  · exact Except.noConfusion h
  rename_i profile hp
  split at h
  · exact Except.noConfusion h
  rename_i rec hrec
  split at h
  · exact Except.noConfusion h
  rename_i hfine
  cases h
  refine ⟨loan, rec, hl, hrec, Decidable.not_not.mp hfine, ?_, ?_, rfl, rfl, rfl, rfl⟩
  · simp [setLoan]
  · intro k2 hk2
    simp [setLoan, hk2]

/-- Every successful transition preserves the one-active-loan bound and the
freshness of the running loan counter. -/
theorem step_preserves_inv {c c' : Chain} (op : Op) (h : applyOp c op = .ok c')
    (ha : ActiveInv c) (hf : FreshLoanInv c) : ActiveInv c' ∧ FreshLoanInv c' := by
  cases op with
  | initProg a f =>
    obtain ⟨h1, _, h3, h4, h5, _, _⟩ := initProgram_ok_spec h
    constructor
    · intro p prof hp
      rw [h4] at hp
      exact ha p prof hp
    · intro u i _
      rw [h5]
      apply hf
      intro ps hps
      rw [h1] at hps
      exact Option.noConfusion hps
  | register a nm inc et now =>
    obtain ⟨ps, _, hps, _, _, _, hnew, hother, hps', hloans, _, _⟩ :=
      register_user_ok_spec h
    constructor
    · intro p prof hp
      by_cases hpa : p = a
      · subst hpa
        rw [hnew] at hp
        cases hp
        exact Nat.zero_le 1
      · rw [hother p hpa] at hp
        exact ha p prof hp
    · intro u i hcond
      rw [hloans]
      apply hf
      intro ps2 hps2
      rw [hps] at hps2
      cases hps2
      have := hcond _ hps'
      simpa using this
  | updateProfile a inc et now =>
    obtain ⟨profile, prof', hp, _, hnew, hactive, _, hother, hps, hloans, _, _⟩ :=
      update_user_profile_ok_spec h
    constructor
    · intro p prof hpp
      by_cases hpa : p = a
      · subst hpa
        rw [hnew] at hpp
        cases hpp
        rw [hactive]
        exact ha _ _ hp
      · rw [hother p hpa] at hpp
        exact ha p prof hpp
    · intro u i hcond
      rw [hloans]
      apply hf
      intro ps2 hps2
      exact hcond ps2 (hps ▸ hps2)
  | createLoan u p r t st mi now =>
    obtain ⟨profile, ps, hprof, hps, _, _, _, _, _, _, _, _, hact0, _,
      _, hnewp, hother, hloanother, hps', _, _⟩ := create_loan_ok_spec h
    constructor
    · intro q prof hq
      by_cases hqu : q = u
      · subst hqu
        rw [hnewp] at hq
        cases hq
        simp [hact0]
      · rw [hother q hqu] at hq
        exact ha q prof hq
    · intro u2 i hcond
      have hbound : ps.total_loans + 1 ≤ i := by
        have := hcond _ hps'
        simpa using this
      by_cases hk : (u2, i) = (u, ps.total_loans)
      · exfalso
        have : i = ps.total_loans := congrArg Prod.snd hk
        omega
      · rw [hloanother _ hk]
        apply hf
        intro ps2 hps2
        rw [hps] at hps2
        cases hps2
        omega
  | recordPayment u lid n amt hash now =>
    obtain ⟨loan, profile, ot, dl, fine, hl, _, hp, _, _, _, _, _, _, _, _, _, _,
      _, hnewp, _, hother, hloanother, _, hpsu, _⟩ := record_payment_ok_spec h
    constructor
    · intro q prof hq
      by_cases hqu : q = u
      · subst hqu
        rw [hnewp] at hq
        cases hq
        cases ot
        · simpa using ha _ _ hp
        · simpa using ha _ _ hp
      · rw [hother q hqu] at hq
        exact ha q prof hq
    · intro u2 i hcond
      have hcond' : ∀ ps, c.program_state = some ps → ps.total_loans ≤ i := by
        intro ps hps
        exact hcond ps (hpsu ▸ hps)
      by_cases hk : (u2, i) = (u, lid)
      · exfalso
        have := hf u2 i hcond'
        rw [hk] at this
        rw [this] at hl
        exact Option.noConfusion hl
      · rw [hloanother _ hk]
        exact hf u2 i hcond'
  | updateRisk u rs lv dp now =>
    obtain ⟨profile, hp, _, _, hnew, hother, hps, hloans, _⟩ :=
      update_risk_score_ok_spec h
    constructor
    · intro q prof hq
      by_cases hqu : q = u
      · subst hqu
        rw [hnew] at hq
        cases hq
        simpa using ha _ _ hp
      · rw [hother q hqu] at hq
        exact ha q prof hq
    · intro u2 i hcond
      rw [hloans]
      apply hf
      intro ps2 hps2
      exact hcond ps2 (hps ▸ hps2)
  | markDefaulted u lid now =>
    obtain ⟨loan, profile, hl, hp, _, _, _, hnewp, hother, hloanother, hpsu, _, _⟩ :=
      mark_loan_defaulted_ok_spec h
    constructor
    · intro q prof hq
      by_cases hqu : q = loan.user
      · subst hqu
        rw [hnewp] at hq
        cases hq
        have := ha _ _ hp
        simp only []
        omega
      · rw [hother q hqu] at hq
        exact ha q prof hq
    · intro u2 i hcond
      have hcond' : ∀ ps, c.program_state = some ps → ps.total_loans ≤ i := by
        intro ps hps
        exact hcond ps (hpsu ▸ hps)
      by_cases hk : (u2, i) = (u, lid)
      · exfalso
        have := hf u2 i hcond'
        rw [hk] at this
        rw [this] at hl
        exact Option.noConfusion hl
      · rw [hloanother _ hk]
        exact hf u2 i hcond'
  | markCompleted u lid now =>
    obtain ⟨loan, profile, hl, hp, _, _, _, hnewp, hother, hloanother, hpsu, _, _⟩ :=
      mark_loan_completed_ok_spec h
    constructor
    · intro q prof hq
      by_cases hqu : q = loan.user
      · subst hqu
        rw [hnewp] at hq
        cases hq
        have := ha _ _ hp
        simp only []
        omega
      · rw [hother q hqu] at hq
        exact ha q prof hq
    · intro u2 i hcond
      have hcond' : ∀ ps, c.program_state = some ps → ps.total_loans ≤ i := by
        intro ps hps
        exact hcond ps (hpsu ▸ hps)
      by_cases hk : (u2, i) = (u, lid)
      · exfalso
        have := hf u2 i hcond'
        rw [hk] at this
        rw [this] at hl
        exact Option.noConfusion hl
      · rw [hloanother _ hk]
        exact hf u2 i hcond'
  | waiveTheFine u lid k w s now =>
    obtain ⟨loan, rec, hl, _, _, _, hloanother, hprofiles, hpsu, _, _⟩ :=
      @waive_fine_ok_spec c u lid k w s now c' h
    constructor
    · intro q prof hq
      rw [hprofiles] at hq
      exact ha q prof hq
    · intro u2 i hcond
      have hcond' : ∀ ps, c.program_state = some ps → ps.total_loans ≤ i := by
        intro ps hps
        exact hcond ps (hpsu ▸ hps)
      by_cases hk : (u2, i) = (u, lid)
      · exfalso
        have := hf u2 i hcond'
        rw [hk] at this
        rw [this] at hl
        exact Option.noConfusion hl
      · rw [hloanother _ hk]
        exact hf u2 i hcond'

/-- Both structural invariants hold in every reachable ledger state. -/
theorem reachable_inv (c : Chain) (h : Reachable c) :
    ActiveInv c ∧ FreshLoanInv c := by
  induction h with
  | empty =>
    constructor
    · intro p prof hp
      exact Option.noConfusion hp
    · intro u i _
      rfl
  | step c op c' _ hok ih =>
    exact step_preserves_inv op hok ih.1 ih.2

/-- When every earlier validation passes but the paid amount does not cover
installment plus fine, RecordPayment fails with InsufficientPayment. -/
theorem record_payment_insufficient {c : Chain} {u lid n amt : Nat}
    {hash : String} {now : Int} {loan : Loan} {profile : UserProfile}
    {ot : Bool} {dl fine : Nat}
    (hl : c.loans (u, lid) = some loan) (huser : loan.user = u)
    (hp : c.profiles u = some profile)
    (hpay : c.payments ((u, lid), n) = none)
    (hstatus : loan.status = LoanStatus.Active)
    (hn1 : 0 < n) (hn2 : n ≤ loan.tenure_months) (hamt : 0 < amt)
    (hhash : hash.length ≤ 100)
    (hassess : assessPayment loan.start_timestamp n loan.monthly_installment now =
      some (ot, dl, fine))
    (hlt : amt < loan.monthly_installment + fine) :
    record_payment c u lid n amt hash now =
      .error (.program .InsufficientPayment) := by
  have hamt' : ¬ amt = 0 := Nat.pos_iff_ne_zero.mp hamt
  simp [record_payment, hl, huser, hp, hpay, hstatus, hn1, hn2, hamt',
    hhash, hassess, hlt]

/-- When every validation passes, the paid amount covers installment plus
fine, and no checked counter overflows, RecordPayment succeeds. -/
theorem record_payment_succeeds {c : Chain} {u lid n amt : Nat}
    {hash : String} {now : Int} {loan : Loan} {profile : UserProfile}
    {ot : Bool} {dl fine : Nat}
    (hl : c.loans (u, lid) = some loan) (huser : loan.user = u)
    (hp : c.profiles u = some profile)
    (hpay : c.payments ((u, lid), n) = none)
    (hstatus : loan.status = LoanStatus.Active)
    (hn1 : 0 < n) (hn2 : n ≤ loan.tenure_months) (hamt : 0 < amt)
    (hhash : hash.length ≤ 100)
    (hassess : assessPayment loan.start_timestamp n loan.monthly_installment now =
      some (ot, dl, fine))
    (hge : loan.monthly_installment + fine ≤ amt)
    (hb1 : loan.total_repaid + amt < U64CAP)
    (hb2 : loan.total_fines + fine < U64CAP)
    (hb3 : profile.total_repaid + amt < U64CAP)
    (hb4 : profile.on_time_payments + 1 < U16CAP)
    (hb5 : profile.late_payments + 1 < U16CAP) :
    ∃ c', record_payment c u lid n amt hash now = .ok c' := by
  have hamt' : ¬ amt = 0 := Nat.pos_iff_ne_zero.mp hamt
  have hnlt : ¬ amt < loan.monthly_installment + fine := Nat.not_lt.mpr hge
  cases ot with
  | true =>
    exact ⟨_, by
      simp [record_payment, hl, huser, hp, hpay, hstatus, hn1, hn2, hamt',
        hhash, hassess, hnlt, checkedAdd, hb1, hb2, hb3, hb4]
      try rfl⟩
  | false =>
    exact ⟨_, by
      simp [record_payment, hl, huser, hp, hpay, hstatus, hn1, hn2, hamt',
        hhash, hassess, hnlt, checkedAdd, hb1, hb2, hb3, hb5]
      try rfl⟩

/-- Payment at or before the grace end is assessed on time with zero days
late and zero fine. -/
theorem assessPayment_onTime {start : Int} {n mi : Nat} {now : Int}
    (h : now ≤ start + (n : Int) * 2592000 + 172800) :
    assessPayment start n mi now = some (true, 0, 0) := by
  simp [assessPayment, h]

/-- Payment after the grace end is assessed late: days late is the day
quotient truncated to u16, the fine the wide product narrowed to u64. -/
theorem assessPayment_late {start : Int} {n mi : Nat} {now : Int}
    (h : start + (n : Int) * 2592000 + 172800 < now)
    (himi : mi < U64CAP) :
    assessPayment start n mi now = some (false,
      ((now - (start + (n : Int) * 2592000 + 172800)).toNat / 86400) % U16CAP,
      mi * 50 * (((now - (start + (n : Int) * 2592000 + 172800)).toNat / 86400) % U16CAP)
        / 10000 % U64CAP) := by
  have hno : ¬ now ≤ start + (n : Int) * 2592000 + 172800 := not_le.mpr h
  by_cases hz : 0 < ((now - (start + (n : Int) * 2592000 + 172800)).toNat / 86400) % U16CAP
  · have hm1 : mi * 50 < U128CAP := by
      simp only [U64CAP] at himi
      simp only [U128CAP]
      omega
    have hm2 : mi * 50 *
        (((now - (start + (n : Int) * 2592000 + 172800)).toNat / 86400) % U16CAP)
        < U128CAP := by
      have hb : ((now - (start + (n : Int) * 2592000 + 172800)).toNat / 86400) % U16CAP
          ≤ 65535 := by
        simp only [U16CAP]
        omega
      have h1 : mi * 50 *
          (((now - (start + (n : Int) * 2592000 + 172800)).toNat / 86400) % U16CAP)
          ≤ mi * 50 * 65535 := Nat.mul_le_mul (le_refl _) hb
      have h2 : mi * 50 * 65535 < U128CAP := by
        simp only [U64CAP] at himi
        simp only [U128CAP]
        omega
      exact lt_of_le_of_lt h1 h2
    simp [assessPayment, hno, hz, checkedMul, hm1, hm2]
  · have hz0 : ((now - (start + (n : Int) * 2592000 + 172800)).toNat / 86400) % U16CAP = 0 := by
      omega
    simp [assessPayment, hno, hz0]

/-- C1 (amended): a successful RecordPayment lowers outstanding_balance by
the full paid amount, fine included — equivalently by
min(amount, outstanding) through the saturating subtraction — so along any
payment sequence the balance equals total_amount minus the sum of the full
paid amounts, clamped at zero, and can never go negative. -/
theorem c1_outstanding_drops_by_full_payment (c : Chain)
    (u lid n amt : Nat) (hash : String) (now : Int) (c' : Chain) (loan : Loan)
    (hloan : c.loans (u, lid) = some loan)
    (h : record_payment c u lid n amt hash now = .ok c') :
    ∀ loan', c'.loans (u, lid) = some loan' →
      loan'.outstanding_balance = loan.outstanding_balance - amt ∧
      loan'.outstanding_balance
        = loan.outstanding_balance - min amt loan.outstanding_balance ∧
      (∀ S, loan.outstanding_balance = loan.total_amount - S →
        loan'.outstanding_balance = loan.total_amount - (S + amt)) ∧
      loan'.total_amount = loan.total_amount := by
  obtain ⟨loan0, profile, ot, dl, fine, hl0, _, _, _, _, _, _, _, _, _, _, _, _,
    hL', _, _, _, _, _, _, _⟩ := record_payment_ok_spec h
  obtain rfl : loan = loan0 := by
    rw [hloan] at hl0
    exact (Option.some.injEq _ _).mp hl0
  intro loan' hl'
  rw [hL'] at hl'
  cases (Option.some.injEq _ _).mp hl'.symm
  refine ⟨rfl, ?_, ?_, rfl⟩
  · show loan.outstanding_balance - amt
      = loan.outstanding_balance - min amt loan.outstanding_balance
    omega
  · intro S hS
    show loan.outstanding_balance - amt = loan.total_amount - (S + amt)
    rw [hS]
    exact Nat.sub_sub _ _ _

/-- Witness for C1 at the concrete late payment of chainP1: the balance
drops from 10661854632 by the full 910700083 (installment 888487886 plus
fine 22212197), matching the clamped running sum from total_amount. -/
theorem c1_witness :
    (loanOf chainP1 (5, 0)).outstanding_balance
      = (loanOf chainC (5, 0)).outstanding_balance - 910700083 ∧
    (loanOf chainP1 (5, 0)).outstanding_balance
      = (loanOf chainC (5, 0)).outstanding_balance
        - min 910700083 (loanOf chainC (5, 0)).outstanding_balance ∧
    (loanOf chainP1 (5, 0)).outstanding_balance
      = (loanOf chainC (5, 0)).total_amount - (0 + 910700083) := by
  have hmain := c1_outstanding_drops_by_full_payment chainC 5 0 1 910700083 "hx"
    3196800 chainP1 (loanOf chainC (5, 0)) rfl rfl (loanOf chainP1 (5, 0)) rfl
  exact ⟨hmain.1, hmain.2.1, hmain.2.2.1 0 rfl⟩

/-- Counterexample to C1 as stated: the concrete late payment of chainP1
carries a fine of 22212197 inside the paid 910700083, yet the balance drops
by the full 910700083, not by the 888487886 principal portion. -/
theorem c1_counterexample :
    isSuccess (record_payment chainC 5 0 1 910700083 "hx" 3196800) = true ∧
    (payOf chainP1 ((5, 0), 1)).fine_amount = 22212197 ∧
    (payOf chainP1 ((5, 0), 1)).amount = 910700083 ∧
    (loanOf chainC (5, 0)).outstanding_balance
      - (loanOf chainP1 (5, 0)).outstanding_balance = 910700083 ∧
    (910700083 : Nat) ≠ 910700083 - 22212197 := by
  refine ⟨rfl, rfl, rfl, by decide, by decide⟩

/-- C5 (amended): after a successful RecordPayment for an installment, any
second RecordPayment for the same (loan, installment_number) pair is
rejected while creating the payment record — the ledger's duplicate-record
rejection, not the declared but never-raised
LoanError.InstallmentAlreadyPaid — so at most one PaymentRecord ever exists
per pair (payment records live at the key (loan, installment_number)). -/
theorem c5_second_payment_rejected_at_creation (c : Chain)
    (u lid n amt : Nat) (hash : String) (now : Int) (c' : Chain)
    (amt2 : Nat) (hash2 : String) (now2 : Int)
    (h : record_payment c u lid n amt hash now = .ok c') :
    record_payment c' u lid n amt2 hash2 now2 = .error .accountAlreadyInUse := by
  obtain ⟨loan, profile, ot, dl, fine, _, huser, _, _, _, _, _, _, _, _, _, _, _,
    hL', hP', hRec', _, _, _, _, _⟩ := record_payment_ok_spec h
  simp [record_payment, hL', hP', hRec', huser]

/-- Witness for C5: replaying installment 1 on chainP1 is rejected by the
ledger's record creation. -/
theorem c5_witness :
    record_payment chainP1 5 0 1 910700083 "h2" 3196800
      = .error .accountAlreadyInUse :=
  c5_second_payment_rejected_at_creation chainC 5 0 1 910700083 "hx" 3196800
    chainP1 910700083 "h2" 3196800 rfl

/-- Counterexample to C5 as stated: the second submission does fail, but
with the ledger's duplicate-account error, which is not the program error
kind InstallmentAlreadyPaid named by the claim. -/
theorem c5_counterexample :
    record_payment chainP1 5 0 1 910700083 "h3" 3196800
      = .error .accountAlreadyInUse ∧
    TxError.accountAlreadyInUse
      ≠ TxError.program LoanError.InstallmentAlreadyPaid := by
  exact ⟨rfl, by decide⟩

/-- C7: every failing transition surfaces its specific error kind to the
caller and commits nothing: the ledger step returns the pre-state records
untouched together with the error. -/
theorem c7_failure_is_atomic (c : Chain) (op : Op) (e : TxError)
    (h : applyOp c op = .error e) : ledgerStep c op = (c, some e) := by
  simp [ledgerStep, h]

/-- Witness for C7: registering on the empty ledger fails (no program
state) and leaves the ledger exactly as it was. -/
theorem c7_witness :
    ledgerStep emptyChain (Op.register 5 "x" 1 EmploymentType.Salaried 0)
      = (emptyChain, some TxError.accountNotFound) :=
  c7_failure_is_atomic emptyChain (Op.register 5 "x" 1 EmploymentType.Salaried 0)
    TxError.accountNotFound rfl

/-- C8: outstanding_balance never increases across a successful payment,
and MarkLoanCompleted succeeds only on an Active loan whose outstanding
balance is exactly zero (it fails in every other case). -/
theorem c8_balance_monotone_and_completion_gate (c : Chain)
    (u lid n amt : Nat) (hash : String) (now now2 : Int) (d1 d2 : Chain)
    (loan : Loan) (hloan : c.loans (u, lid) = some loan) :
    (record_payment c u lid n amt hash now = .ok d1 →
      ∀ l1, d1.loans (u, lid) = some l1 →
        l1.outstanding_balance ≤ loan.outstanding_balance) ∧
    (mark_loan_completed c u lid now2 = .ok d2 →
      loan.status = LoanStatus.Active ∧ loan.outstanding_balance = 0) := by
  constructor
  · intro hok l1 hl1
    obtain ⟨loan0, profile, ot, dl, fine, hl0, _, _, _, _, _, _, _, _, _, _, _, _,
      hL', _, _, _, _, _, _, _⟩ := record_payment_ok_spec hok
    obtain rfl : loan = loan0 := by
      rw [hloan] at hl0
      exact (Option.some.injEq _ _).mp hl0
    rw [hL'] at hl1
    cases (Option.some.injEq _ _).mp hl1.symm
    exact Nat.sub_le _ _
  · intro hok
    obtain ⟨loan0, profile, hl0, _, hstatus, hout, _, _, _, _, _, _, _⟩ :=
      mark_loan_completed_ok_spec hok
    obtain rfl : loan = loan0 := by
      rw [hloan] at hl0
      exact (Option.some.injEq _ _).mp hl0
    exact ⟨hstatus, hout⟩

/-- Witness for C8 on chainD: the on-time installment-3 payment keeps the
zero balance non-increasing, and the completion that succeeds on chainD
really found an Active loan with zero balance. -/
theorem c8_witness :
    (loanOf chainE (5, 0)).outstanding_balance
      ≤ (loanOf chainD (5, 0)).outstanding_balance ∧
    (loanOf chainD (5, 0)).status = LoanStatus.Active ∧
    (loanOf chainD (5, 0)).outstanding_balance = 0 := by
  have hmain := c8_balance_monotone_and_completion_gate chainD 5 0 3 888487886
    "hz" 7776000 10 chainE chainF (loanOf chainD (5, 0)) rfl
  exact ⟨hmain.1 rfl (loanOf chainE (5, 0)) rfl, hmain.2 rfl⟩

/-- C9 (amended): WaiveFine enforces no administrator identity — any signer
passes, as the handler consults no stored authority.  It fails (with
InvalidPaymentAmount) exactly when the waived amount exceeds the
installment's recorded fine; on success the loan's total_fines and
outstanding_balance both drop by the waived amount through saturating
subtraction (exactly the waived amount whenever they are at least it). -/
theorem c9_waive_fine_unrestricted_signer (c : Chain)
    (u lid k w s : Nat) (now : Int) (loan : Loan) (rec : PaymentRecord)
    (profile : UserProfile)
    (hl : c.loans (u, lid) = some loan)
    (hp : c.profiles loan.user = some profile)
    (hrec : c.payments ((u, lid), k) = some rec) :
    (w ≤ rec.fine_amount →
      ∃ c', waive_fine c u lid k w s now = .ok c' ∧
        c'.loans (u, lid) = some
          ({ loan with
            outstanding_balance := loan.outstanding_balance - w
            total_fines := loan.total_fines - w })) ∧
    (rec.fine_amount < w →
      waive_fine c u lid k w s now = .error (.program .InvalidPaymentAmount)) := by
  constructor
  · intro hw
    refine ⟨setLoan c (u, lid)
      ({ loan with
        outstanding_balance := loan.outstanding_balance - w
        total_fines := loan.total_fines - w }), ?_, ?_⟩
    · simp [waive_fine, hl, hp, hrec, hw]
    · simp [setLoan]
  · intro hlt
    have hnot : ¬ w ≤ rec.fine_amount := Nat.not_le.mpr hlt
    simp [waive_fine, hl, hp, hrec, hnot]

/-- Witness for C9: on chainP1, signer 2 waives 100 of installment 1's fine
of 22212197 and the loan's aggregates drop by exactly 100. -/
theorem c9_witness :
    ∃ c', waive_fine chainP1 5 0 1 100 2 0 = .ok c' ∧
      c'.loans (5, 0) = some
        ({ loanOf chainP1 (5, 0) with
          outstanding_balance := (loanOf chainP1 (5, 0)).outstanding_balance - 100
          total_fines := (loanOf chainP1 (5, 0)).total_fines - 100 }) :=
  (c9_waive_fine_unrestricted_signer chainP1 5 0 1 100 2 0
    (loanOf chainP1 (5, 0)) (payOf chainP1 ((5, 0), 1)) (profOf chainP1 5)
    rfl rfl rfl).1 (by decide)

/-- Counterexample to C9 as stated: the program administrator is key 1, yet
the waiver signed by key 2 succeeds — the administrator-only rule is not
enforced anywhere in the handler or its accounts struct. -/
theorem c9_counterexample :
    (psOf chainP1).authority = 1 ∧ (1 : Nat) ≠ 2 ∧
    isSuccess (waive_fine chainP1 5 0 1 100 2 0) = true := by
  exact ⟨rfl, by decide, rfl⟩

/-- C10: a RecordPayment whose amount covers installment plus fine but
exceeds the outstanding balance still succeeds (no underflow and no abort):
the balance falls by min(amount, outstanding), that is to zero. -/
theorem c10_overpayment_saturates_to_zero (c : Chain)
    (u lid n amt : Nat) (hash : String) (now : Int)
    (loan : Loan) (profile : UserProfile) (ot : Bool) (dl fine : Nat)
    (hl : c.loans (u, lid) = some loan) (huser : loan.user = u)
    (hp : c.profiles u = some profile)
    (hpay : c.payments ((u, lid), n) = none)
    (hstatus : loan.status = LoanStatus.Active)
    (hn1 : 0 < n) (hn2 : n ≤ loan.tenure_months) (hamt : 0 < amt)
    (hhash : hash.length ≤ 100)
    (hassess : assessPayment loan.start_timestamp n loan.monthly_installment now =
      some (ot, dl, fine))
    (hge : loan.monthly_installment + fine ≤ amt)
    (hb1 : loan.total_repaid + amt < U64CAP)
    (hb2 : loan.total_fines + fine < U64CAP)
    (hb3 : profile.total_repaid + amt < U64CAP)
    (hb4 : profile.on_time_payments + 1 < U16CAP)
    (hb5 : profile.late_payments + 1 < U16CAP)
    (hover : loan.outstanding_balance < amt) :
    ∃ c' l', record_payment c u lid n amt hash now = .ok c' ∧
      c'.loans (u, lid) = some l' ∧
      l'.outstanding_balance
        = loan.outstanding_balance - min amt loan.outstanding_balance ∧
      l'.outstanding_balance = 0 := by
  obtain ⟨c', hok⟩ := record_payment_succeeds hl huser hp hpay hstatus hn1 hn2
    hamt hhash hassess hge hb1 hb2 hb3 hb4 hb5
  obtain ⟨loan0, profile0, ot0, dl0, fine0, hl0, _, _, _, _, _, _, _, _, _, _, _, _,
    hL', _, _, _, _, _, _, _⟩ := record_payment_ok_spec hok
  obtain rfl : loan = loan0 := by
    rw [hl] at hl0
    exact (Option.some.injEq _ _).mp hl0
  refine ⟨c', _, hok, hL', ?_, ?_⟩
  · show loan.outstanding_balance - amt
      = loan.outstanding_balance - min amt loan.outstanding_balance
    omega
  · show loan.outstanding_balance - amt = 0
    omega

/-- Witness for C10: the installment-2 overpayment of 20000000000 against
an outstanding balance of 9751154549 succeeds and zeroes the balance. -/
theorem c10_witness :
    ∃ c' l', record_payment chainP1 5 0 2 20000000000 "hy" 5184000 = .ok c' ∧
      c'.loans (5, 0) = some l' ∧
      l'.outstanding_balance
        = (loanOf chainP1 (5, 0)).outstanding_balance
          - min 20000000000 (loanOf chainP1 (5, 0)).outstanding_balance ∧
      l'.outstanding_balance = 0 :=
  c10_overpayment_saturates_to_zero chainP1 5 0 2 20000000000 "hy" 5184000
    (loanOf chainP1 (5, 0)) (profOf chainP1 5) true 0 0
    rfl rfl rfl rfl rfl (by decide) (by decide) (by decide) (by decide)
    (by rfl) (by decide) (by decide) (by decide) (by decide) (by decide)
    (by decide) (by decide)

/-- Lower bound of the clamped credit bump: the score stays at or above
300 after a saturating upward nudge capped at 850. -/
theorem creditBump_lower (cs d : Nat) (hb1 : 300 ≤ cs) :
    300 ≤ min (satAdd U16CAP cs d) 850 := by
  simp only [satAdd, U16CAP]
  omega

/-- Upper bound of the clamped credit bump. -/
theorem creditBump_upper (cs d : Nat) : min (satAdd U16CAP cs d) 850 ≤ 850 := by
  simp only [satAdd, U16CAP]
  omega

/-- Lower bound of the floored credit drop. -/
theorem creditDrop_lower (cs d : Nat) : 300 ≤ max (cs - d) 300 := le_max_right _ _

/-- Upper bound of the floored credit drop. -/
theorem creditDrop_upper (cs d : Nat) (hb2 : cs ≤ 850) :
    max (cs - d) 300 ≤ 850 := by
  omega

/-- C2 (amended): every operation except UpdateRiskScore keeps each stored
credit score inside the 300 to 850 band whenever all stored scores were in
band before (RegisterUser starts new profiles at 500); UpdateRiskScore
instead overwrites the score with the supplied risk score, checked only
against the 1000 ceiling, and so can leave the band. -/
theorem c2_credit_band (c : Chain) (op : Op) (c' : Chain)
    (hInv : CreditInv c) (hop : op.isUpdateRisk = false)
    (h : applyOp c op = .ok c') : CreditInv c' := by
  cases op with
  | initProg a f =>
    obtain ⟨_, _, _, h4, _, _, _⟩ := initProgram_ok_spec h
    intro p prof hp
    rw [h4] at hp
    exact hInv p prof hp
  | register a nm inc et now =>
    obtain ⟨ps, _, _, _, _, _, hnew, hother, _, _, _, _⟩ := register_user_ok_spec h
    intro p prof hp
    by_cases hpa : p = a
    · subst hpa
      rw [hnew] at hp
      cases (Option.some.injEq _ _).mp hp.symm
      exact ⟨show (300 : Nat) ≤ 500 by decide, show (500 : Nat) ≤ 850 by decide⟩
    · rw [hother p hpa] at hp
      exact hInv p prof hp
  | updateProfile a inc et now =>
    obtain ⟨profile, prof', hp0, _, hnew, _, hcredit, hother, _, _, _, _⟩ :=
      update_user_profile_ok_spec h
    intro p prof hp
    by_cases hpa : p = a
    · subst hpa
      rw [hnew] at hp
      cases (Option.some.injEq _ _).mp hp.symm
      rw [hcredit]
      exact hInv _ _ hp0
    · rw [hother p hpa] at hp
      exact hInv p prof hp
  | createLoan u p r t st mi now =>
    obtain ⟨profile, ps, hprof, _, _, _, _, _, _, _, _, _, _, _, _, hnewp,
      hother, _, _, _, _⟩ := create_loan_ok_spec h
    intro q prof hq
    by_cases hqu : q = u
    · subst hqu
      rw [hnewp] at hq
      have hb := hInv _ _ hprof
      cases (Option.some.injEq _ _).mp hq.symm
      exact ⟨hb.1, hb.2⟩
    · rw [hother q hqu] at hq
      exact hInv q prof hq
  | recordPayment u lid n amt hash now =>
    obtain ⟨loan, profile, ot, dl, fine, _, _, hp0, _, _, _, _, _, _, _, _, _, _,
      _, hnewp, _, hother, _, _, _, _⟩ := record_payment_ok_spec h
    intro q prof hq
    by_cases hqu : q = u
    · subst hqu
      rw [hnewp] at hq
      obtain ⟨hb1, hb2⟩ := hInv _ _ hp0
      have hq1 := (Option.some.injEq _ _).mp hq.symm
      cases ot with
      | true =>
        rw [if_pos (rfl : (true : Bool) = true)] at hq1
        cases hq1
        exact ⟨creditBump_lower profile.credit_score 2 hb1,
          creditBump_upper profile.credit_score 2⟩
      | false =>
        rw [if_neg (by decide : ¬ (false : Bool) = true)] at hq1
        cases hq1
        exact ⟨creditDrop_lower profile.credit_score 5,
          creditDrop_upper profile.credit_score 5 hb2⟩
    · rw [hother q hqu] at hq
      exact hInv q prof hq
  | updateRisk u rs lv dp now =>
    exact absurd hop (by simp [Op.isUpdateRisk])
  | markDefaulted u lid now =>
    obtain ⟨loan, profile, _, hp0, _, _, _, hnewp, hother, _, _, _, _⟩ :=
      mark_loan_defaulted_ok_spec h
    intro q prof hq
    by_cases hqu : q = loan.user
    · subst hqu
      rw [hnewp] at hq
      obtain ⟨hb1, hb2⟩ := hInv _ _ hp0
      cases (Option.some.injEq _ _).mp hq.symm
      exact ⟨creditDrop_lower profile.credit_score 100,
        creditDrop_upper profile.credit_score 100 hb2⟩
    · rw [hother q hqu] at hq
      exact hInv q prof hq
  | markCompleted u lid now =>
    obtain ⟨loan, profile, _, hp0, _, _, _, hnewp, hother, _, _, _, _⟩ :=
      mark_loan_completed_ok_spec h
    intro q prof hq
    by_cases hqu : q = loan.user
    · subst hqu
      rw [hnewp] at hq
      obtain ⟨hb1, hb2⟩ := hInv _ _ hp0
      cases (Option.some.injEq _ _).mp hq.symm
      exact ⟨creditBump_lower profile.credit_score 20 hb1,
        creditBump_upper profile.credit_score 20⟩
    · rw [hother q hqu] at hq
      exact hInv q prof hq
  | waiveTheFine u lid k w s now =>
    obtain ⟨loan, rec, _, _, _, _, _, hprofiles, _, _, _⟩ :=
      @waive_fine_ok_spec c u lid k w s now c' h
    intro q prof hq
    rw [hprofiles] at hq
    exact hInv q prof hq

/-- Witness for C2: updating the income of the in-band profile of chainW
keeps every stored score inside 300 to 850. -/
theorem c2_witness : CreditInv chainW2 := by
  have hInv : CreditInv chainW := by
    intro p prof hp
    by_cases h5 : p = 5
    · subst h5
      rw [show chainW.profiles 5 = some profW from rfl] at hp
      cases (Option.some.injEq _ _).mp hp.symm
      exact ⟨by decide, by decide⟩
    · rw [show chainW.profiles p = if p = 5 then some profW else none from rfl,
        if_neg h5] at hp
      exact Option.noConfusion hp
  exact c2_credit_band chainW (Op.updateProfile 5 (some 2000) none 1) chainW2
    hInv rfl rfl

/-- Counterexample to C2 as stated: UpdateRiskScore with risk score 0 is
accepted (0 is at most 1000) and writes 0 into the profile's credit score,
far below the documented floor of 300. -/
theorem c2_counterexample :
    isSuccess (update_risk_score chainB 5 0 RiskLevel.High 5000 7) = true ∧
    (profOf chainB 5).credit_score = 500 ∧
    (profOf chainR 5).credit_score = 0 ∧
    ¬ 300 ≤ (profOf chainR 5).credit_score := by
  exact ⟨rfl, rfl, rfl, by decide⟩

/-- C6 (amended): in every reachable ledger state each profile holds at
most one active loan, and CreateLoan invoked for a borrower who already has
an active loan always fails — specifically with ActiveLoanExists whenever
the program is unpaused and the principal, rate and tenure pass their own
bounds checks (those checks run first and report their own error kinds). -/
theorem c6_one_active_loan (c : Chain) (hreach : Reachable c) :
    ActiveInv c ∧
    (∀ u p r t : Nat, ∀ st : Int, ∀ mi : Nat, ∀ now : Int,
      ∀ ps : LoanProgramState, ∀ profile : UserProfile,
      c.program_state = some ps → ps.paused = false →
      c.profiles u = some profile → profile.active_loans = 1 →
      5000000000 ≤ p → p ≤ 500000000000 → 0 < r → r ≤ 3000 →
      3 ≤ t → t ≤ 60 →
      create_loan c u p r t st mi now = .error (.program .ActiveLoanExists)) := by
  obtain ⟨hactive, hfresh⟩ := reachable_inv c hreach
  refine ⟨hactive, ?_⟩
  intro u p r t st mi now ps profile hps hpaused hprof hact h1 h2 h3 h4 h5 h6
  have hnone : c.loans (u, ps.total_loans) = none := by
    apply hfresh
    intro ps2 hps2
    rw [hps] at hps2
    obtain rfl : ps = ps2 := (Option.some.injEq _ _).mp hps2
    exact le_refl _
  have hact' : profile.active_loans ≠ 0 := by omega
  simp [create_loan, hprof, hps, hnone, hpaused, h1, h2, h3, h4, h5, h6, hact']

/-- Witness for C6 on the reachable state chainC, whose single profile
holds one active loan: a fresh, fully in-bounds CreateLoan for user 5 is
refused with ActiveLoanExists. -/
theorem c6_witness :
    ActiveInv chainC ∧
    create_loan chainC 5 10000000000 1200 12 0 888487886 99
      = .error (.program .ActiveLoanExists) := by
  have h0 : Reachable emptyChain := Reachable.empty
  have h1 : Reachable chainA := Reachable.step _ (Op.initProg 1 100) _ h0 rfl
  have h2 : Reachable chainB :=
    Reachable.step _ (Op.register 5 "ali" 100000 EmploymentType.Salaried 0) _ h1 rfl
  have h3 : Reachable chainC :=
    Reachable.step _ (Op.createLoan 5 10000000000 1200 12 0 888487886 0) _ h2 rfl
  have hmain := c6_one_active_loan chainC h3
  exact ⟨hmain.1, hmain.2 5 10000000000 1200 12 0 888487886 99 (psOf chainC)
    (profOf chainC 5) rfl rfl rfl rfl (by decide) (by decide) (by decide)
    (by decide) (by decide) (by decide)⟩

/-- Counterexample to C6 as stated: with the borrower's active_loans
already 1, a CreateLoan whose principal is out of bounds fails with
InvalidLoanAmount, not ActiveLoanExists — the bounds checks run first. -/
theorem c6_counterexample :
    (profOf chainC 5).active_loans = 1 ∧
    create_loan chainC 5 0 1200 12 0 888487886 99
      = .error (.program .InvalidLoanAmount) := by
  exact ⟨rfl, rfl⟩

/-- C4 (amended): with due date start + installment x 30 days and a 2-day
grace window, a payment at or before the grace end is on time with zero
days late and zero fine; a later payment has days_late equal to the day
quotient floor((now - (dueDate + grace)) / 1 day) truncated to u16
(reduced mod 2^16), and fine monthly_installment x 50 x days_late / 10000
computed in u128 and narrowed to u64 (mod 2^64); a payment exactly 5 days
past the grace end is late with days_late = 5; and once the preliminary
validations pass (Active loan, installment number in range, positive
amount, hash within bounds) the transition fails with InsufficientPayment
whenever the amount is below installment plus fine. -/
theorem c4_lateness_and_insufficiency
    (start : Int) (n mi : Nat) (now : Int) (himi : mi < U64CAP)
    (c : Chain) (u lid n2 amt : Nat) (hash : String) (now2 : Int)
    (loan : Loan) (profile : UserProfile) (ot : Bool) (dl fine : Nat) :
    (now ≤ start + (n : Int) * 2592000 + 172800 →
      assessPayment start n mi now = some (true, 0, 0)) ∧
    (start + (n : Int) * 2592000 + 172800 < now →
      assessPayment start n mi now = some (false,
        ((now - (start + (n : Int) * 2592000 + 172800)).toNat / 86400) % U16CAP,
        mi * 50 * (((now - (start + (n : Int) * 2592000 + 172800)).toNat / 86400) % U16CAP)
          / 10000 % U64CAP)) ∧
    (now = start + (n : Int) * 2592000 + 172800 + 5 * 86400 →
      assessPayment start n mi now = some (false, 5, mi * 50 * 5 / 10000 % U64CAP)) ∧
    (c.loans (u, lid) = some loan → loan.user = u →
      c.profiles u = some profile →
      c.payments ((u, lid), n2) = none →
      loan.status = LoanStatus.Active →
      0 < n2 → n2 ≤ loan.tenure_months → 0 < amt → hash.length ≤ 100 →
      assessPayment loan.start_timestamp n2 loan.monthly_installment now2 =
        some (ot, dl, fine) →
      amt < loan.monthly_installment + fine →
      record_payment c u lid n2 amt hash now2 =
        .error (.program .InsufficientPayment)) := by
  refine ⟨fun h => assessPayment_onTime h, fun h => assessPayment_late h himi, ?_, ?_⟩
  · intro hnow
    subst hnow
    have hlt : start + (n : Int) * 2592000 + 172800
        < start + (n : Int) * 2592000 + 172800 + 5 * 86400 := by omega
    rw [assessPayment_late hlt himi]
    have hD : ((start + (n : Int) * 2592000 + 172800 + 5 * 86400
        - (start + (n : Int) * 2592000 + 172800)).toNat / 86400) % U16CAP = 5 := by
      have h5 : start + (n : Int) * 2592000 + 172800 + 5 * 86400
          - (start + (n : Int) * 2592000 + 172800) = 432000 := by ring
      rw [h5]
      decide
    rw [hD]
  · intro hl huser hp hpay hstatus hn1 hn2 hamt hhash hassess hlt
    exact record_payment_insufficient hl huser hp hpay hstatus hn1 hn2 hamt
      hhash hassess hlt

/-- Witness for C4: the grace boundary itself is on time; a payment exactly
5 days past the grace end yields days_late = 5 with the daily-rate fine;
and on chainC a 1-unit payment 5 days past grace fails with
InsufficientPayment. -/
theorem c4_witness :
    assessPayment 0 1 1000 2764800 = some (true, 0, 0) ∧
    assessPayment 0 1 1000 3196800
      = some (false, 5, 1000 * 50 * 5 / 10000 % U64CAP) ∧
    record_payment chainC 5 0 1 1 "h0" 3196800
      = .error (.program .InsufficientPayment) := by
  have happ := c4_lateness_and_insufficiency 0 1 1000 2764800 (by decide)
    chainC 5 0 1 1 "h0" 3196800 (loanOf chainC (5, 0)) (profOf chainC 5)
    false 5 22212197
  have happ2 := c4_lateness_and_insufficiency 0 1 1000 3196800 (by decide)
    chainC 5 0 1 1 "h0" 3196800 (loanOf chainC (5, 0)) (profOf chainC 5)
    false 5 22212197
  refine ⟨happ.1 (by decide), happ2.2.2.1 (by decide), ?_⟩
  exact happ2.2.2.2 rfl rfl rfl rfl rfl (by decide) (by decide) (by decide)
    (by decide) rfl (by decide)

/-- Counterexample to C4 as stated: a payment 65536 days past the grace end
is assessed with days_late = 0 (the u16 cast wraps) although the claimed
floor formula gives 65536, and the fine charged is then 0. -/
theorem c4_counterexample :
    assessPayment 0 1 1000 (2764800 + 65536 * 86400) = some (false, 0, 0) ∧
    ((2764800 + 65536 * 86400 : Int) - (0 + (1 : Int) * 2592000 + 172800)).toNat / 86400
      = 65536 ∧
    (0 : Nat) ≠ 65536 := by
  refine ⟨rfl, by decide, by decide⟩
